import Mathlib

/-!
Shallow embedding of `src/golang/models/order.go` (package `models` of
zeogod/captureorderack) and proofs about it.

Modelling conventions:
* Environment variables read at startup (`MONGOURL`, `AMQPURL`, `TEAMNAME`,
  `SOURCE`, `APPINSIGHTS_KEY`) are fields of an `Env` record.
* External effects (the mgo insert, the AMQP dial/channel/declare/publish
  calls, `url.Parse`) are oracles: an `Option String` that is `some err`
  exactly when the corresponding Go call returns a non-nil error.
* `rand.Intn` is an oracle `intn : Nat → Nat`; the contract of the Go
  `rand.Intn n` (a value in `[0, n)` for `n > 0`) is the predicate `RngOk`.
* the Go `log.Fatal` prints and then calls `os.Exit(1)`: control never
  reaches the statements after it.  A run therefore carries
  `fatal : Option String`; when it is `some msg` the process terminated at
  that point and every later statement (including unreachable telemetry
  calls that textually follow a `log.Fatal` in the Go source) did not run.
* Telemetry `MarkTime` timestamps are elided (wall-clock time); the
  tracked name/type/target/success/data fields are kept.
-/

namespace CaptureOrder

/-- Order represents the order json (struct `Order`, order.go lines 25-33). -/
structure Order where
  ID : String
  EmailAddress : String
  PreferredLanguage : String
  Product : String
  Total : Float
  Source : String
  Status : String
deriving Repr

/-- The process environment read at startup (order.go lines 36-40 and the
`os.Getenv("SOURCE")` on line 93), plus `eventHubName`, which `initAMQP`
(lines 342-343) sets to `url.Parse(amqpURL).Path` via the external
`net/url` library. -/
structure Env where
  customInsightsKey : String
  mongoURL : String
  amqpURL : String
  teamName : String
  sourceEnv : String
  eventHubName : String
deriving Repr

/-- `customTelemetryClient != nil`: the custom client is initialized only
when `APPINSIGHTS_KEY` is non-empty (order.go lines 168-170). -/
def hasCustomTelemetry (env : Env) : Bool := env.customInsightsKey != ""

/-- Go `strings.Contains s sub`: some split of `s` starts with `sub`. -/
def goContains (s sub : String) : Bool :=
  scan s.toList
where scan : List Char → Bool
  | [] => sub.toList.isPrefixOf []
  | c :: cs => sub.toList.isPrefixOf (c :: cs) || scan cs

/-- `isCosmosDb` (order.go line 68). -/
def isCosmosDb (env : Env) : Bool := goContains env.mongoURL "documents.azure.com"

/-- `isEventHub` (order.go line 69). -/
def isEventHub (env : Env) : Bool := goContains env.amqpURL "servicebus.windows.net"

/-- The global `db` label set by `initMongo` (order.go lines 199-206). -/
def db (env : Env) : String := if isCosmosDb env then "CosmosDB" else "MongoDB"

/-- `random` (order.go lines 507-509): `rand.Intn(max-min) + min`, with the
`rand.Intn` call abstracted as the oracle `intn`. -/
def random (intn : Nat → Nat) (min max : Nat) : Nat :=
  intn (max - min) + min

/-- Contract of the Go `rand.Intn`: for a positive bound the result is in
`[0, n)`. -/
def RngOk (intn : Nat → Nat) : Prop := ∀ n, 0 < n → intn n < n

/-- One hex digit, as in the Go `encoding/hex` table `"0123456789abcdef"`. -/
def hexDigit (n : Nat) : Char :=
  if n < 10 then Char.ofNat (48 + n) else Char.ofNat (87 + n)

/-- Hex encoding of one byte: high nibble then low nibble. -/
def hexByte (b : Fin 256) : List Char := [hexDigit (b.val / 16), hexDigit (b.val % 16)]

/-- `bson.ObjectId.Hex()`: the hex encoding of the 12 ObjectId bytes
(order.go lines 88-89 call `bson.NewObjectId()` and store its `.Hex()`). -/
def objectIdHexList (oid : List (Fin 256)) : List Char :=
  (oid.map hexByte).flatten

/-- `bson.ObjectId.Hex()` as a string. -/
def objectIdHex (oid : List (Fin 256)) : String :=
  String.mk (objectIdHexList oid)

/-- `c` is one of the sixteen lowercase hex digit characters
(codepoints 48-57 are the digits, 97-102 are a-f). -/
def isHexChar (c : Char) : Bool :=
  (48 ≤ c.toNat && c.toNat ≤ 57) || (97 ≤ c.toNat && c.toNat ≤ 102)

/-- Every character of `s` is a lowercase hex digit. -/
def isHexString (s : String) : Bool := s.toList.all isHexChar

/-- A telemetry record sent to Application Insights (timestamps elided). -/
inductive Telemetry where
  | trackException (err : String)
  | trackEvent (label : String)
  | trackDependency (name dtype target : String) (success : Bool) (data : String)
deriving Repr, DecidableEq

/-- The field mutations `AddOrderToMongoDB` performs on its argument before
the insert (order.go lines 83-94): random partition product, fresh ObjectId
hex as ID, status forced to "Open", source defaulted from `SOURCE` when
empty or the placeholder "string". -/
def persistMutate (env : Env) (intn : Nat → Nat) (oid : List (Fin 256)) (order : Order) : Order :=
  let partitionKey := toString (random intn 0 11)
  let o1 := { order with Product := "product-" ++ partitionKey }
  let o2 := { o1 with ID := objectIdHex oid }
  let o3 := { o2 with Status := "Open" }
  if o3.Source = "" ∨ o3.Source = "string" then { o3 with Source := env.sourceEnv } else o3

/-- Result of one `AddOrderToMongoDB` call.  `order` is the value returned
to the caller (`none` when the process terminated first), `fatal` the
`log.Fatal` message when it did, `telemetry` the records actually sent. -/
structure PersistRun where
  order : Option Order
  fatal : Option String
  telemetry : List Telemetry
deriving Repr

/-- `AddOrderToMongoDB` (order.go lines 74-145).  `insertErr` is the oracle
for `mongoDBCollection.Insert(order)`.  On insert error the Go code calls
`log.Fatal` (line 105), which exits the process: the
`TrackException` on line 110, the challenge `TrackEvent`, the dependency
telemetry and the `return order` never execute on that path. -/
def AddOrderToMongoDB (env : Env) (intn : Nat → Nat) (oid : List (Fin 256))
    (insertErr : Option String) (order : Order) : PersistRun :=
  let order := persistMutate env intn oid order
  match insertErr with
  | some err =>
      { order := none
        fatal := some ("Problem inserting data: " ++ err)
        telemetry := [] }
  | none =>
      let success := true
      { order := some order
        fatal := none
        telemetry :=
          Telemetry.trackEvent ("CapureOrder: - Team Name " ++ env.teamName ++ " db " ++ db env) ::
          (if hasCustomTelemetry env then
            [Telemetry.trackDependency (db env) "MongoDB" env.mongoURL success "Insert order"]
          else []) }

/-- An effect on the queue backend. -/
inductive QueueEffect where
  | queueDeclare (name : String) (durable autoDelete exclusive noWait : Bool)
  | publish (exchange routingKey : String) (mandatory immediate : Bool)
      (deliveryMode : Nat) (contentType : String) (body : String)
  | send (targetAddress : String) (body : String)
deriving Repr, DecidableEq

/-- The message body both queue variants build (order.go lines 355 and 426)
by `fmt.Sprintf` from `order.ID` and `teamName`; the doubled braces and the
single quotes of the Go format string are literal bytes of the body (here
written with \x7b, \x7d and \x27 escapes). -/
def msgBody (id team : String) : String :=
  "\x7b\x7b\x27order\x27: \x27" ++ id ++ "\x27, \x27source\x27: \x27" ++ team ++ "\x27\x7d\x7d"

/-- Result of one publish call: the queue effects that happened, the
telemetry sent, and the `log.Fatal` message if the process terminated. -/
structure PublishRun where
  effects : List QueueEffect
  telemetry : List Telemetry
  fatal : Option String
deriving Repr

/-- `addOrderToAMQP091` (order.go lines 352-420).  Oracles: `dialErr` for
`amqp091.Dial`, `channelErr` for `.Channel()`, `declareErr` for
`QueueDeclare`, `publishErr` for `Publish`.  The error returned by
`QueueDeclare` (line 375) is assigned to `err` but never checked: on a
declare failure execution falls through to `Publish`, using the zero-value
`amqp091.Queue` whose `Name` is `""` as the routing key.
`amqp091.Persistent` is the constant 2. -/
def addOrderToAMQP091 (env : Env) (dialErr channelErr declareErr publishErr : Option String)
    (order : Order) : PublishRun :=
  let body := msgBody order.ID env.teamName
  match dialErr with
  | some e => { effects := [], telemetry := [], fatal := some ("Creating client: " ++ e) }
  | none =>
  match channelErr with
  | some e => { effects := [], telemetry := [], fatal := some ("Creating channel: " ++ e) }
  | none =>
  let queueName := match declareErr with | some _ => "" | none => "order"
  let effs := [QueueEffect.queueDeclare "order" true false false false,
               QueueEffect.publish "" queueName false false 2 "application/json" body]
  match publishErr with
  | some e => { effects := effs, telemetry := [], fatal := some ("Sending message:" ++ e) }
  | none =>
      let success := true
      { effects := effs
        telemetry :=
          if hasCustomTelemetry env then
            [Telemetry.trackDependency "RabbitMQ" "AMQP" env.amqpURL success "Send message"]
          else []
        fatal := none }

/-- `addOrderToAMQP10` (order.go lines 423-504).  Oracles: `dialErr` for
`amqp10.Dial`, `sessionErr` for `NewSession`, `senderErr` for `NewSender`,
`sendErr` for `sender.Send`.  The target address is
`fmt.Sprintf("%s/partitions/%s", eventHubName, strconv.Itoa(random(0, 3)))`. -/
def addOrderToAMQP10 (env : Env) (intn : Nat → Nat)
    (dialErr sessionErr senderErr sendErr : Option String) (order : Order) : PublishRun :=
  let body := msgBody order.ID env.teamName
  match dialErr with
  | some e => { effects := [], telemetry := [], fatal := some ("Creating client: " ++ e) }
  | none =>
  match sessionErr with
  | some e => { effects := [], telemetry := [], fatal := some ("Creating session: " ++ e) }
  | none =>
  let partitionKey := toString (random intn 0 3)
  let targetAddress := env.eventHubName ++ "/partitions/" ++ partitionKey
  match senderErr with
  | some e => { effects := [], telemetry := [], fatal := some ("Creating sender link: " ++ e) }
  | none =>
  let effs := [QueueEffect.send targetAddress body]
  match sendErr with
  | some e => { effects := effs, telemetry := [], fatal := some ("Sending message:" ++ e) }
  | none =>
      let success := true
      { effects := effs
        telemetry :=
          if hasCustomTelemetry env then
            [Telemetry.trackDependency "EventHub" "AMQP" env.amqpURL success "Send message"]
          else []
        fatal := none }

/-- Which queue variant a call went to. -/
inductive QueueVariant where
  | amqp10
  | amqp091
deriving Repr, DecidableEq

/-- `AddOrderToAMQP` (order.go lines 148-154): dispatch on `isEventHub`.
The oracles `e1..e4` feed whichever variant runs (dial/session/sender/send
for AMQP 1.0, dial/channel/declare/publish for AMQP 0.9.1); the variant
taken is returned alongside the run for stating the dispatch property. -/
def AddOrderToAMQP (env : Env) (intn : Nat → Nat) (e1 e2 e3 e4 : Option String)
    (order : Order) : QueueVariant × PublishRun :=
  if isEventHub env then
    (QueueVariant.amqp10, addOrderToAMQP10 env intn e1 e2 e3 e4 order)
  else
    (QueueVariant.amqp091, addOrderToAMQP091 env e1 e2 e3 e4 order)

/-- The swallowed log line for a failed `shardCollection` command
(order.go line 316). -/
def shardSwallowLog (e : String) : String :=
  "Could not create/re-create sharded MongoDB collection. Either collection is already sharded or sharding is not supported: " ++ e

/-- The `log.Fatal` message for a failed initial Mongo connection
(order.go line 254). -/
def dialFatalMsg (env : Env) (e : String) : String :=
  "Can\x27t connect to mongo at [" ++ env.mongoURL ++ "], go error: " ++ e

/-- Result of `initMongo`: whether the process terminated (`fatal`), the
swallowed shard-failure log line when the `shardCollection` command failed,
and whether `mongoDBCollection` was assigned (line 323 reached). -/
structure InitMongoRun where
  fatal : Option String
  shardErrLogged : Option String
  collectionSet : Bool
deriving Repr

/-- `initMongo` (order.go lines 189-324).  Oracles: `parseErr` for
`url.Parse(mongoURL)`, `dialErr` for `mgo.DialWithInfo`, `shardErr` for the
`shardCollection` database command.  A parse or dial failure hits
`log.Fatal` (lines 192, 254) and terminates the process (the telemetry and
the `os.Exit(1)` textually after line 254 are unreachable).  A
`shardCollection` failure is only logged (line 316) and execution continues
to fetch the collection (line 323). -/
def initMongo (env : Env) (parseErr dialErr shardErr : Option String) : InitMongoRun :=
  match parseErr with
  | some e =>
      { fatal := some ("Problem parsing Mongo URL: " ++ e)
        shardErrLogged := none
        collectionSet := false }
  | none =>
  match dialErr with
  | some e =>
      { fatal := some (dialFatalMsg env e)
        shardErrLogged := none
        collectionSet := false }
  | none =>
  match shardErr with
  | some e =>
      { fatal := none
        shardErrLogged := some (shardSwallowLog e)
        collectionSet := true }
  | none =>
      { fatal := none
        shardErrLogged := none
        collectionSet := true }

/-! Helper lemmas about the hex encoding and the persist mutations. -/

/-- Every hex digit produced from a nibble is one of the sixteen hex
characters. -/
theorem isHexChar_hexDigit : ∀ n, n < 16 → isHexChar (hexDigit n) = true := by decide

/-- Both characters of an encoded byte are hex characters. -/
theorem hexByte_all (b : Fin 256) : (hexByte b).all isHexChar = true := by
  have hb := b.isLt
  have h1 : isHexChar (hexDigit (b.val / 16)) = true := isHexChar_hexDigit _ (by omega)
  have h2 : isHexChar (hexDigit (b.val % 16)) = true := isHexChar_hexDigit _ (by omega)
  simp [hexByte, h1, h2]

/-- Every character of the encoded ObjectId is a hex character. -/
theorem objectIdHexList_all (oid : List (Fin 256)) :
    (objectIdHexList oid).all isHexChar = true := by
  induction oid with
  | nil => rfl
  | cons b t ih =>
      simp only [objectIdHexList, List.map_cons, List.flatten_cons, List.all_append] at ih ⊢
      simp [hexByte_all b, ih]

/-- The encoded ObjectId has two characters per byte. -/
theorem objectIdHexList_length (oid : List (Fin 256)) :
    (objectIdHexList oid).length = 2 * oid.length := by
  induction oid with
  | nil => rfl
  | cons b t ih =>
      simp only [objectIdHexList, List.map_cons, List.flatten_cons, List.length_append,
        List.length_cons] at ih ⊢
      simp only [hexByte, List.length_cons, List.length_nil]
      omega

/-- String version of `objectIdHexList_length`. -/
theorem objectIdHex_length (oid : List (Fin 256)) :
    (objectIdHex oid).length = 2 * oid.length :=
  objectIdHexList_length oid

/-- The encoded ObjectId is a hex string. -/
theorem objectIdHex_hex (oid : List (Fin 256)) : isHexString (objectIdHex oid) = true := by
  simpa [isHexString, objectIdHex, String.toList] using objectIdHexList_all oid

/-- Product after the persist mutations. -/
theorem persistMutate_Product (env : Env) (intn : Nat → Nat) (oid : List (Fin 256))
    (order : Order) :
    (persistMutate env intn oid order).Product = "product-" ++ toString (random intn 0 11) := by
  by_cases h : order.Source = "" ∨ order.Source = "string" <;> simp [persistMutate, h]

/-- ID after the persist mutations. -/
theorem persistMutate_ID (env : Env) (intn : Nat → Nat) (oid : List (Fin 256))
    (order : Order) :
    (persistMutate env intn oid order).ID = objectIdHex oid := by
  by_cases h : order.Source = "" ∨ order.Source = "string" <;> simp [persistMutate, h]

/-- Status after the persist mutations. -/
theorem persistMutate_Status (env : Env) (intn : Nat → Nat) (oid : List (Fin 256))
    (order : Order) :
    (persistMutate env intn oid order).Status = "Open" := by
  by_cases h : order.Source = "" ∨ order.Source = "string" <;> simp [persistMutate, h]

/-- Source after the persist mutations. -/
theorem persistMutate_Source (env : Env) (intn : Nat → Nat) (oid : List (Fin 256))
    (order : Order) :
    (persistMutate env intn oid order).Source =
      (if order.Source = "" ∨ order.Source = "string" then env.sourceEnv else order.Source) := by
  by_cases h : order.Source = "" ∨ order.Source = "string" <;> simp [persistMutate, h]

/-- EmailAddress after the persist mutations. -/
theorem persistMutate_EmailAddress (env : Env) (intn : Nat → Nat) (oid : List (Fin 256))
    (order : Order) :
    (persistMutate env intn oid order).EmailAddress = order.EmailAddress := by
  by_cases h : order.Source = "" ∨ order.Source = "string" <;> simp [persistMutate, h]

/-- PreferredLanguage after the persist mutations. -/
theorem persistMutate_PreferredLanguage (env : Env) (intn : Nat → Nat) (oid : List (Fin 256))
    (order : Order) :
    (persistMutate env intn oid order).PreferredLanguage = order.PreferredLanguage := by
  by_cases h : order.Source = "" ∨ order.Source = "string" <;> simp [persistMutate, h]

/-- Total after the persist mutations. -/
theorem persistMutate_Total (env : Env) (intn : Nat → Nat) (oid : List (Fin 256))
    (order : Order) :
    (persistMutate env intn oid order).Total = order.Total := by
  by_cases h : order.Source = "" ∨ order.Source = "string" <;> simp [persistMutate, h]

/-! Concrete sample inputs used by witnesses and counterexamples. -/

/-- An oracle for `rand.Intn` that always answers 0. -/
def intnZero : Nat → Nat := fun _ => 0

/-- A sample environment. -/
def envEx : Env :=
  { customInsightsKey := "ikey"
    mongoURL := "mongodb://db.documents.azure.com:10255/?ssl=true"
    amqpURL := "amqp://rabbitmq"
    teamName := "team1"
    sourceEnv := "aks"
    eventHubName := "hub" }

/-- A sample input order. -/
def orderEx : Order :=
  { ID := ""
    EmailAddress := "a@b.com"
    PreferredLanguage := "en"
    Product := ""
    Total := 10.5
    Source := ""
    Status := "Pending" }

/-- A second sample order sharing only the ID with `orderEx`. -/
def orderEx2 : Order :=
  { ID := ""
    EmailAddress := "c@d.com"
    PreferredLanguage := "fr"
    Product := "widget"
    Total := 99.25
    Source := "web"
    Status := "Closed" }

/-- Twelve sample ObjectId bytes. -/
def oidEx : List (Fin 256) := [0, 1, 2, 3, 4, 5, 6, 7, 8, 9, 10, 255]

/-! Claim theorems. -/

/-- C1: the claim states that even when the document-store insert fails,
`AddOrderToMongoDB` does not terminate and still returns the populated
Order.  The code does the opposite: on a failed insert it calls
`log.Fatal`, which exits the process, so no Order is returned to the
caller and the exception telemetry after the `log.Fatal` never runs.
This theorem evaluates the embedding at such a failing input. -/
theorem C1_insert_failure_terminates :
    (AddOrderToMongoDB envEx intnZero oidEx (some "connection refused") orderEx).fatal
        = some "Problem inserting data: connection refused" ∧
    (AddOrderToMongoDB envEx intnZero oidEx (some "connection refused") orderEx).order = none ∧
    (AddOrderToMongoDB envEx intnZero oidEx (some "connection refused") orderEx).telemetry = [] :=
  ⟨rfl, rfl, rfl⟩

/-- C2: after a successful insert, the returned Order has a non-empty
24-character hex identifier, a product of the form `product-N` with
`N < 11`, and status `"Open"` regardless of the input status. -/
theorem C2_persist_success_fields (env : Env) (intn : Nat → Nat) (oid : List (Fin 256))
    (order : Order) (hrng : RngOk intn) (hlen : oid.length = 12) :
    ∃ o : Order, (AddOrderToMongoDB env intn oid none order).order = some o ∧
      o.ID ≠ "" ∧ isHexString o.ID = true ∧ o.ID.length = 24 ∧
      (∃ n : Nat, n < 11 ∧ o.Product = "product-" ++ toString n) ∧
      o.Status = "Open" := by
  refine ⟨persistMutate env intn oid order, rfl, ?_, ?_, ?_, ?_, ?_⟩
  · rw [persistMutate_ID]
    intro hid
    have h24 := objectIdHex_length oid
    rw [hid, hlen] at h24
    simp at h24
  · rw [persistMutate_ID]
    exact objectIdHex_hex oid
  · rw [persistMutate_ID, objectIdHex_length, hlen]
  · exact ⟨random intn 0 11, by simpa [random] using hrng 11 (by norm_num),
      persistMutate_Product env intn oid order⟩
  · exact persistMutate_Status env intn oid order

/-- C2 witness: the hypotheses and the conclusion at a concrete input. -/
theorem C2_witness :
    RngOk intnZero ∧ oidEx.length = 12 ∧
    (∃ o : Order, (AddOrderToMongoDB envEx intnZero oidEx none orderEx).order = some o ∧
      o.ID ≠ "" ∧ isHexString o.ID = true ∧ o.ID.length = 24 ∧
      (∃ n : Nat, n < 11 ∧ o.Product = "product-" ++ toString n) ∧
      o.Status = "Open") :=
  ⟨fun _ h => h, rfl,
    C2_persist_success_fields envEx intnZero oidEx orderEx (fun _ h => h) rfl⟩

/-- C3: the claim states that every failure during queue declare or
publish in `addOrderToAMQP091` terminates the process, a failed declare
never proceeding silently.  The code never checks the error returned by
`QueueDeclare` (order.go line 375): with a failing declare and a
succeeding publish the run does not terminate, and the publish proceeds
using the zero-value queue, whose `Name` (the routing key) is `""`. -/
theorem C3_declare_failure_proceeds :
    (addOrderToAMQP091 envEx none none (some "declare failed") none orderEx).fatal = none ∧
    (addOrderToAMQP091 envEx none none (some "declare failed") none orderEx).effects =
      [QueueEffect.queueDeclare "order" true false false false,
       QueueEffect.publish "" "" false false 2 "application/json"
         (msgBody orderEx.ID envEx.teamName)] :=
  ⟨rfl, rfl⟩

/-- C4: the AMQP 1.0 variant sends to `<eventHubName>/partitions/<N>` with
the partition suffix `N` drawn by `rand.Intn` from `[0,3)`; the AMQP 0.9.1
variant declares a durable queue literally named `order` and publishes to
it through the default exchange. -/
theorem C4_publish_targets (env : Env) (intn : Nat → Nat) (order : Order)
    (hrng : RngOk intn) :
    (∃ n : Nat, n < 3 ∧
      (addOrderToAMQP10 env intn none none none none order).effects =
        [QueueEffect.send (env.eventHubName ++ "/partitions/" ++ toString n)
          (msgBody order.ID env.teamName)]) ∧
    (addOrderToAMQP091 env none none none none order).effects =
      [QueueEffect.queueDeclare "order" true false false false,
       QueueEffect.publish "" "order" false false 2 "application/json"
         (msgBody order.ID env.teamName)] := by
  refine ⟨⟨random intn 0 3, ?_, rfl⟩, rfl⟩
  simpa [random] using hrng 3 (by norm_num)

/-- C4 witness: the hypothesis and the conclusion at a concrete input. -/
theorem C4_witness :
    RngOk intnZero ∧
    ((∃ n : Nat, n < 3 ∧
      (addOrderToAMQP10 envEx intnZero none none none none orderEx).effects =
        [QueueEffect.send (envEx.eventHubName ++ "/partitions/" ++ toString n)
          (msgBody orderEx.ID envEx.teamName)]) ∧
    (addOrderToAMQP091 envEx none none none none orderEx).effects =
      [QueueEffect.queueDeclare "order" true false false false,
       QueueEffect.publish "" "order" false false 2 "application/json"
         (msgBody orderEx.ID envEx.teamName)]) :=
  ⟨fun _ h => h, C4_publish_targets envEx intnZero orderEx (fun _ h => h)⟩

/-- C5: after a successful persist the returned Order has its source
defaulted from the `SOURCE` environment variable exactly when the input
source was empty or the placeholder `"string"`, and kept otherwise. -/
theorem C5_source_defaulting (env : Env) (intn : Nat → Nat) (oid : List (Fin 256))
    (order : Order) :
    ∃ o : Order, (AddOrderToMongoDB env intn oid none order).order = some o ∧
      o.Source =
        (if order.Source = "" ∨ order.Source = "string" then env.sourceEnv
         else order.Source) :=
  ⟨persistMutate env intn oid order, rfl, persistMutate_Source env intn oid order⟩

/-- C6: cloud document-store mode holds exactly when the Mongo URL contains
`documents.azure.com`, and `AddOrderToAMQP` dispatches to the AMQP 1.0
variant exactly when the AMQP URL contains `servicebus.windows.net`,
otherwise to the AMQP 0.9.1 variant; exactly one variant runs per call. -/
theorem C6_backend_selection (env : Env) (intn : Nat → Nat) (e1 e2 e3 e4 : Option String)
    (order : Order) :
    (isCosmosDb env = goContains env.mongoURL "documents.azure.com") ∧
    ((AddOrderToAMQP env intn e1 e2 e3 e4 order).1 = QueueVariant.amqp10 ↔
      goContains env.amqpURL "servicebus.windows.net" = true) ∧
    ((AddOrderToAMQP env intn e1 e2 e3 e4 order).1 = QueueVariant.amqp091 ↔
      goContains env.amqpURL "servicebus.windows.net" = false) := by
  refine ⟨rfl, ?_, ?_⟩ <;>
    by_cases h : goContains env.amqpURL "servicebus.windows.net" = true <;>
      simp_all [AddOrderToAMQP, isEventHub]

/-- C7: both queue variants send exactly the literal body built from the
order identifier and the team label, and the AMQP 0.9.1 variant labels it
content-type `application/json` with persistent delivery mode (2). -/
theorem C7_message_body (env : Env) (intn : Nat → Nat) (order : Order) :
    msgBody order.ID env.teamName =
      "\x7b\x7b\x27order\x27: \x27" ++ order.ID ++ "\x27, \x27source\x27: \x27" ++
        env.teamName ++ "\x27\x7d\x7d" ∧
    (addOrderToAMQP091 env none none none none order).effects =
      [QueueEffect.queueDeclare "order" true false false false,
       QueueEffect.publish "" "order" false false 2 "application/json"
         (msgBody order.ID env.teamName)] ∧
    (addOrderToAMQP10 env intn none none none none order).effects =
      [QueueEffect.send (env.eventHubName ++ "/partitions/" ++ toString (random intn 0 3))
        (msgBody order.ID env.teamName)] :=
  ⟨rfl, rfl, rfl⟩

/-- C8: a failed `shardCollection` command during `initMongo` is only
logged and never terminates startup, which still reaches the collection;
a failed initial connection terminates the process. -/
theorem C8_initMongo_error_policy (env : Env) (shardErr : Option String) (d e : String) :
    (initMongo env none none shardErr).fatal = none ∧
    (initMongo env none none shardErr).collectionSet = true ∧
    (initMongo env none none (some e)).shardErrLogged = some (shardSwallowLog e) ∧
    (initMongo env none (some d) shardErr).fatal = some (dialFatalMsg env d) ∧
    (initMongo env none (some d) shardErr).collectionSet = false := by
  refine ⟨?_, ?_, rfl, rfl, rfl⟩ <;> cases shardErr <;> rfl

/-- C9: the published message depends only on the identifier of the input
Order: two Orders with the same ID produce identical publish runs under
either variant. -/
theorem C9_publish_reads_only_id (env : Env) (intn : Nat → Nat)
    (e1 e2 e3 e4 : Option String) (o1 o2 : Order) (h : o1.ID = o2.ID) :
    AddOrderToAMQP env intn e1 e2 e3 e4 o1 = AddOrderToAMQP env intn e1 e2 e3 e4 o2 := by
  simp only [AddOrderToAMQP, addOrderToAMQP10, addOrderToAMQP091, h]

/-- C9 witness: two orders differing in every field but the ID. -/
theorem C9_noninterference_witness :
    orderEx.ID = orderEx2.ID ∧
    AddOrderToAMQP envEx intnZero none none none none orderEx =
      AddOrderToAMQP envEx intnZero none none none none orderEx2 :=
  ⟨rfl, C9_publish_reads_only_id envEx intnZero none none none none orderEx orderEx2 rfl⟩

/-- C10: after a successful persist the returned Order keeps the input
EmailAddress, PreferredLanguage and Total unchanged; besides ID, Product
and Status, only Source is (conditionally) modified. -/
theorem C10_persist_frame (env : Env) (intn : Nat → Nat) (oid : List (Fin 256))
    (order : Order) :
    ∃ o : Order, (AddOrderToMongoDB env intn oid none order).order = some o ∧
      o.EmailAddress = order.EmailAddress ∧
      o.PreferredLanguage = order.PreferredLanguage ∧
      o.Total = order.Total ∧
      o.Source =
        (if order.Source = "" ∨ order.Source = "string" then env.sourceEnv
         else order.Source) :=
  ⟨persistMutate env intn oid order, rfl,
    persistMutate_EmailAddress env intn oid order,
    persistMutate_PreferredLanguage env intn oid order,
    persistMutate_Total env intn oid order,
    persistMutate_Source env intn oid order⟩

end CaptureOrder
